import Mathlib

/-!
Shallow embedding of the word-game tooling of `the_puzzle_network`
(word analysis, game validation, formatting, and the game-builder /
word-picker agent logic), together with theorems settling the
specification claims about them.

Python strings are modelled as Lean `String` (ASCII treatment of
`str.isalpha`, `str.lower`, `str.strip`), Python `float` arithmetic as
exact rational arithmetic over `ℚ`, Python `int` as `Int`/`Nat`, Python
`None`-able values as `Option`, and Python dictionaries of fixed shape as
Lean structures.  Python's `round(x, 2)` is modelled as rounding the
rational `100*x` to the nearest integer; for the difficulty formula the
value `100*x` is never half an odd integer, so the tie-breaking mode is
irrelevant.
-/

namespace PuzzleNetwork

attribute [local semireducible] Rat.add Rat.sub Rat.mul Rat.inv Rat.ofScientific

/-- Rounding a rational to two decimal places, modelling `round(x, 2)`
(written with `Rat.floor` so that it evaluates by kernel reduction;
`round2_eq_round` below identifies it with Mathlib's `round`). -/
def round2 (q : ℚ) : ℚ := ((q * 100 + 1 / 2).floor : ℚ) / 100

/-- Does the character list `needle` occur at the start of `hay`?
Helper for the substring test used by Python's `in` on strings. -/
def startsWithChars : List Char → List Char → Bool
  | [], _ => true
  | _ :: _, [] => false
  | a :: as, b :: bs => a == b && startsWithChars as bs

/-- Does the character list `needle` occur contiguously inside `hay`?
Helper for the substring test used by Python's `in` on strings. -/
def hasSubChars (needle : List Char) : List Char → Bool
  | [] => needle.isEmpty
  | b :: bs => startsWithChars needle (b :: bs) || hasSubChars needle bs

/-- Python `needle in hay` on strings: contiguous substring test. -/
def strContains (hay needle : String) : Bool :=
  hasSubChars needle.data hay.data

/-- Python `str.lower()` (ASCII model, kernel-reducible). -/
def pyLower (s : String) : String := String.mk (s.data.map Char.toLower)

/-- Python `str.upper()` (ASCII model, kernel-reducible). -/
def pyUpper (s : String) : String := String.mk (s.data.map Char.toUpper)

/-- Python `str.strip()`: drop whitespace from both ends. -/
def pyStrip (s : String) : String :=
  String.mk (((s.data.dropWhile Char.isWhitespace).reverse.dropWhile
    Char.isWhitespace).reverse)

/- ### word_tools.py -/

/-- The `DifficultyLevel` enumeration from `word_tools.py`. -/
inductive DifficultyLevel where
  | easy
  | medium
  | hard
deriving DecidableEq, Repr

/-- The `ValidationResult` dataclass from `word_tools.py`. -/
structure ValidationResult where
  valid : Bool
  word : Option String := none
  length : Option Nat := none
  error : Option String := none
deriving DecidableEq, Repr

/-- The `DifficultyResult` dataclass from `word_tools.py`. -/
structure DifficultyResult where
  word : String
  difficulty : DifficultyLevel
  score : ℚ
  vowels : Nat
  consonants : Nat
  length : Nat
deriving DecidableEq, Repr

/-- Difficulty histogram `{"easy": _, "medium": _, "hard": _}` from
`check_word_variety`. -/
structure DifficultyDistribution where
  easy : Nat
  medium : Nat
  hard : Nat
deriving DecidableEq, Repr

/-- The `VarietyResult` dataclass from `word_tools.py`. -/
structure VarietyResult where
  valid : Bool
  total_words : Nat
  unique_words : Nat
  difficulty_distribution : Option DifficultyDistribution := none
  error : Option String := none
  duplicate_count : Option Nat := none
deriving DecidableEq, Repr

/-- Configuration of `WordAnalyzer.__init__`. -/
structure WordAnalyzerConfig where
  min_length : Nat
  max_length : Nat
  vowel_set : List Char
  easy_threshold : ℚ
  medium_threshold : ℚ
deriving Repr

/-- The default `WordAnalyzer()` configuration. -/
def defaultWordAnalyzer : WordAnalyzerConfig :=
  { min_length := 3
    max_length := 20
    vowel_set := ['a', 'e', 'i', 'o', 'u']
    easy_threshold := 30
    medium_threshold := 60 }

/-- Model of `WordAnalyzer.validate_word`. -/
def validate_word (cfg : WordAnalyzerConfig) (word : String) : ValidationResult :=
  let cleaned_word := pyLower (pyStrip word)
  if cleaned_word = "" then
    { valid := false, error := some "Word cannot be empty" }
  else if cleaned_word.length < cfg.min_length then
    { valid := false
      error := some ("Word must be at least " ++ toString cfg.min_length ++ " characters") }
  else if cleaned_word.length > cfg.max_length then
    { valid := false
      error := some ("Word must be " ++ toString cfg.max_length ++ " characters or less") }
  else if ¬cleaned_word.data.all Char.isAlpha then
    { valid := false, error := some "Word must contain only letters" }
  else
    { valid := true, word := some cleaned_word, length := some cleaned_word.length }

/-- Vowel count of `WordAnalyzer.calculate_difficulty`:
`sum(1 for c in cleaned_word if c in self.vowel_set)`. -/
def vowelCount (cfg : WordAnalyzerConfig) (cleaned_word : String) : Nat :=
  (cleaned_word.data.filter (fun c => cfg.vowel_set.contains c)).length

/-- The raw (unrounded) difficulty score computed inside
`WordAnalyzer.calculate_difficulty`:
`(length_score * 0.6 + ratio_score * 0.4) * 100`. -/
def difficultyRawScore (cfg : WordAnalyzerConfig) (word : String) : ℚ :=
  let cleaned_word := pyLower word
  let vowels := vowelCount cfg cleaned_word
  let consonants := cleaned_word.length - vowels
  let length_score : ℚ := (cleaned_word.length : ℚ) / (cfg.max_length : ℚ)
  let ratio_score : ℚ :=
    if cleaned_word.length = 0 then 0
    else |(vowels : ℚ) - (consonants : ℚ)| / (cleaned_word.length : ℚ)
  (length_score * 0.6 + ratio_score * 0.4) * 100

/-- The `WordAnalyzer.calculate_difficulty`.  The bucket is selected on the
unrounded score, the reported score is rounded to two decimals, exactly as
in the source. -/
def calculate_difficulty (cfg : WordAnalyzerConfig) (word : String) : DifficultyResult :=
  let cleaned_word := pyLower word
  let vowels := vowelCount cfg cleaned_word
  let consonants := cleaned_word.length - vowels
  let score := difficultyRawScore cfg word
  let difficulty :=
    if score < cfg.easy_threshold then DifficultyLevel.easy
    else if score < cfg.medium_threshold then DifficultyLevel.medium
    else DifficultyLevel.hard
  { word := cleaned_word
    difficulty := difficulty
    score := round2 score
    vowels := vowels
    consonants := consonants
    length := cleaned_word.length }

/-- The `list.count` for difficulty levels, as in `difficulties.count("easy")`. -/
def countLevel (d : DifficultyLevel) (l : List DifficultyLevel) : Nat :=
  (l.filter (fun x => decide (x = d))).length

/-- Number of distinct lowercased words, `len({w.lower() for w in words})`. -/
def uniqueLowerCount (words : List String) : Nat :=
  (words.map pyLower).dedup.length

/-- Model of `WordAnalyzer.check_word_variety`. -/
def check_word_variety (cfg : WordAnalyzerConfig) (words : List String) : VarietyResult :=
  if words = [] then
    { valid := false, total_words := 0, unique_words := 0,
      error := some "Word list is empty" }
  else
    let unique_words := uniqueLowerCount words
    if unique_words ≠ words.length then
      let duplicates := words.length - unique_words
      { valid := false
        total_words := words.length
        unique_words := unique_words
        error := some ("Found " ++ toString duplicates ++ " duplicate word(s)")
        duplicate_count := some duplicates }
    else
      let difficulties := words.map (fun w => (calculate_difficulty cfg w).difficulty)
      { valid := true
        total_words := words.length
        unique_words := unique_words
        difficulty_distribution := some
          { easy := countLevel DifficultyLevel.easy difficulties
            medium := countLevel DifficultyLevel.medium difficulties
            hard := countLevel DifficultyLevel.hard difficulties } }

/- ### validation_tools.py -/

/-- The `GameType` enumeration from `validation_tools.py`. -/
inductive GameType where
  | word_search
  | crossword
  | anagram
  | word_match
  | trivia
deriving DecidableEq, Repr

/-- The `.value` string of a `GameType` member. -/
def gameTypeValue : GameType → String
  | .word_search => "word_search"
  | .crossword => "crossword"
  | .anagram => "anagram"
  | .word_match => "word_match"
  | .trivia => "trivia"

/-- The `GameValidationResult` dataclass from `validation_tools.py`. -/
structure GameValidationResult where
  valid : Bool
  message : Option String := none
  error : Option String := none
  missing_fields : Option (List String) := none
deriving DecidableEq, Repr

/-- The `QualityResult` dataclass from `validation_tools.py`. -/
structure QualityResult where
  valid : Bool
  quality_score : Int
  issues : List String
  total_issues : Nat
deriving DecidableEq, Repr

/-- The `ThemeConsistencyResult` dataclass from `validation_tools.py`. -/
structure ThemeConsistencyResult where
  valid : Bool
  theme : String
  theme_mentioned_in_description : Bool
  word_count : Nat
  consistency_score : Int
  error : Option String := none
deriving DecidableEq, Repr

/-- The `game_data` dictionary passed to `validate_game_completion`,
restricted to the four required fields; an absent dictionary key is an
absent (`none`) field. -/
structure GameData where
  type_ : Option String
  title : Option String
  words : Option (List String)
  difficulty : Option String
deriving DecidableEq, Repr

/-- Configuration of `GameValidator.__init__` (required fields are the four
modelled `GameData` fields; `quality_thresholds` becomes six bounds). -/
structure GameValidatorConfig where
  valid_game_types : List GameType
  title_min : Nat
  title_max : Nat
  word_min : Nat
  word_max : Nat
  instr_min : Nat
  instr_max : Nat
deriving Repr

/-- The default `GameValidator()` configuration. -/
def defaultGameValidator : GameValidatorConfig :=
  { valid_game_types :=
      [.word_search, .crossword, .anagram, .word_match, .trivia]
    title_min := 3, title_max := 50
    word_min := 3, word_max := 50
    instr_min := 10, instr_max := 500 }

/-- The missing-field list computed at the start of
`validate_game_completion`, in required-field order. -/
def gameDataMissing (gd : GameData) : List String :=
  (if gd.type_.isNone then ["type"] else []) ++
  (if gd.title.isNone then ["title"] else []) ++
  (if gd.words.isNone then ["words"] else []) ++
  (if gd.difficulty.isNone then ["difficulty"] else [])

/-- Model of `GameValidator.validate_game_completion`. -/
def validate_game_completion (cfg : GameValidatorConfig) (game_data : GameData) :
    GameValidationResult :=
  let missing := gameDataMissing game_data
  if missing ≠ [] then
    { valid := false
      error := some ("Missing required fields: " ++ String.intercalate ", " missing)
      missing_fields := some missing }
  else
    let words := game_data.words.getD []
    if words = [] ∨ words.length < cfg.word_min then
      { valid := false
        error := some ("Game must contain at least " ++ toString cfg.word_min ++ " words") }
    else
      let valid_type_values := cfg.valid_game_types.map gameTypeValue
      let type_ok := match game_data.type_ with
        | some t => valid_type_values.contains t
        | none => false
      if type_ok = false then
        { valid := false
          error := some ("Invalid game type. Must be one of: " ++
            String.intercalate ", " valid_type_values) }
      else
        { valid := true, message := some "Game structure is valid" }

/-- The `GameValidator.check_content_quality`.  The three bound checks all run
(list concatenation, no short-circuit), each violated bound appending one
issue string. -/
def check_content_quality (cfg : GameValidatorConfig)
    (title : String) (words : List String) (instructions : String) : QualityResult :=
  let quality_issues :=
    (if title = "" ∨ title.length < cfg.title_min then
      ["Title must be at least " ++ toString cfg.title_min ++ " characters"] else []) ++
    (if title.length > cfg.title_max then
      ["Title must be " ++ toString cfg.title_max ++ " characters or less"] else []) ++
    (if words.length < cfg.word_min then
      ["Game must contain at least " ++ toString cfg.word_min ++ " words"] else []) ++
    (if words.length > cfg.word_max then
      ["Game should not exceed " ++ toString cfg.word_max ++ " words"] else []) ++
    (if instructions = "" ∨ instructions.length < cfg.instr_min then
      ["Instructions must be at least " ++ toString cfg.instr_min ++ " characters"] else []) ++
    (if instructions.length > cfg.instr_max then
      ["Instructions should not exceed " ++ toString cfg.instr_max ++ " characters"] else [])
  let quality_score : Int :=
    if quality_issues.isEmpty then 100
    else max 0 (100 - (quality_issues.length : Int) * 20)
  { valid := quality_issues.isEmpty
    quality_score := quality_score
    issues := quality_issues
    total_issues := quality_issues.length }

/-- Model of `GameValidator.validate_theme_consistency`. -/
def validate_theme_consistency
    (theme : String) (words : List String) (description : String) :
    ThemeConsistencyResult :=
  if theme = "" then
    { valid := false, theme := "", theme_mentioned_in_description := false
      word_count := 0, consistency_score := 0
      error := some "Theme cannot be empty" }
  else if words = [] then
    { valid := false, theme := theme, theme_mentioned_in_description := false
      word_count := 0, consistency_score := 0
      error := some "Word list cannot be empty" }
  else
    let theme_presence := strContains (pyLower description) (pyLower theme)
    { valid := true
      theme := theme
      theme_mentioned_in_description := theme_presence
      word_count := words.length
      consistency_score := if theme_presence then 85 else 70 }

/- ### format_tools.py -/

/-- The `metadata` sub-dictionary built by
`GameFormatter.format_game_structure`. -/
structure GameStructureMetadata where
  type_ : String
  title : String
  difficulty : String
  word_count : Nat
deriving DecidableEq, Repr

/-- The `content` sub-dictionary built by
`GameFormatter.format_game_structure`. -/
structure GameStructureContent where
  words : List String
  instructions : String
  estimated_time_minutes : Nat
deriving DecidableEq, Repr

/-- The `game` dictionary built by `GameFormatter.format_game_structure`.
The source serialises this dictionary to a JSON string with
`json.dumps(game, indent=2)`; the embedding keeps the structured value,
abstracting the (injective) textual serialisation. -/
structure GameStructure where
  metadata : GameStructureMetadata
  content : GameStructureContent
deriving DecidableEq, Repr

/-- The `GameFormatter._calculate_estimated_time`:
`base_time (5) + len(words) // 5`. -/
def formatterEstimatedTime (words : List String) : Nat :=
  let base_time := 5
  let word_factor := words.length / 5
  base_time + word_factor

/-- The `GameFormatter.format_game_structure` (the dictionary it serialises). -/
def format_game_structure
    (game_type title : String) (words : List String) (difficulty : String) :
    GameStructure :=
  { metadata :=
      { type_ := game_type, title := title, difficulty := difficulty
        word_count := words.length }
    content :=
      { words := words
        instructions := "Solve the " ++ game_type ++ " puzzle using these " ++
          toString words.length ++ " words"
        estimated_time_minutes := formatterEstimatedTime words } }

/-- A clue record produced by `ClueFormatter.format_clue`. -/
structure Clue where
  word : String
  hint : String
  category : String
  letter_count : Nat
deriving DecidableEq, Repr

/-- The `ClueFormatter._hint_templates` lookup with default `"general"`
template, already instantiated at `{length}`. -/
def hintTemplate (category : String) (len : Nat) : String :=
  if category = "animal" then "This is a " ++ toString len ++ "-letter animal"
  else if category = "place" then "This is a " ++ toString len ++ "-letter location"
  else if category = "object" then "This is a " ++ toString len ++ "-letter object"
  else if category = "action" then "This is a " ++ toString len ++ "-letter verb"
  else "This is a " ++ toString len ++ "-letter word"

/-- The `ClueFormatter.format_clue` (with `category or "general"` defaulting). -/
def format_clue (word : String) (category : Option String) : Clue :=
  let category := match category with
    | some c => if c = "" then "general" else c
    | none => "general"
  { word := word
    hint := hintTemplate category word.length
    category := category
    letter_count := word.length }

/-- The numbered answer-key lines of `AnswerKeyFormatter.format_answer_key`
(`enumerate(words_with_answers, 1)`). -/
def answerKeyLines : Nat → List Clue → List String
  | _, [] => []
  | i, c :: cs =>
    (toString i ++ ". " ++ pyUpper c.word ++ " - " ++ c.hint) :: answerKeyLines (i + 1) cs

/-- Model of `AnswerKeyFormatter.format_answer_key`. -/
def format_answer_key (words_with_answers : List Clue) : String :=
  String.intercalate "\n"
    (["ANSWER KEY", String.mk (List.replicate 40 '=')] ++
      answerKeyLines 1 words_with_answers)

/- ### game_builder_agent.py -/

/-- The `GameContent` dataclass. -/
structure GameContent where
  title : String
  instructions : String
  clues : List Clue
  answer_key : String
  estimated_time_minutes : Int
deriving DecidableEq, Repr

/-- The `GameMetadata` dataclass. -/
structure GameMetadata where
  theme : String
  game_type : GameType
  difficulty : String
  word_count : Nat
  quality_score : ℚ
  consistency_score : ℚ
deriving DecidableEq, Repr

/-- The validation-results dictionary returned by
`GameBuilderAgent._run_validations` (fixed keys, so a structure). -/
structure ValidationSummary where
  completion_valid : Bool
  completion_errors : Option String
  quality_score : Int
  quality_issues : List String
  consistency_score : Int
  theme_mentioned : Bool
deriving DecidableEq, Repr

/-- The `CompleteGame` dataclass. -/
structure CompleteGame where
  metadata : GameMetadata
  content : GameContent
  formatted_structure : GameStructure
  validation_results : ValidationSummary
  ready_for_publication : Bool
deriving DecidableEq, Repr

/-- The `GameBuilderAgent.quality_standards` (the default dictionary). -/
structure QualityStandards where
  content_quality : ℚ
  theme_consistency : ℚ
  overall_quality : ℚ
deriving Repr

/-- The default quality standards of `GameBuilderAgent.__init__`. -/
def defaultQualityStandards : QualityStandards :=
  { content_quality := 80, theme_consistency := 75, overall_quality := 85 }

/-- One step of Python's `str.title()` (ASCII): a letter is uppercased
when the previous character is not a letter, lowercased otherwise. -/
def pyTitleChars : Bool → List Char → List Char
  | _, [] => []
  | prevAlpha, c :: cs =>
    let c' := if c.isAlpha then (if prevAlpha then c.toLower else c.toUpper) else c
    c' :: pyTitleChars c.isAlpha cs

/-- Python `str.title()` (ASCII model). -/
def pyTitle (s : String) : String := String.mk (pyTitleChars false s.data)

/-- The `game_type_names` display-name table in
`GameBuilderAgent._generate_title`. -/
def gameTypeDisplayName : GameType → String
  | .word_search => "Word Hunt"
  | .crossword => "Crossword"
  | .anagram => "Anagram Challenge"
  | .word_match => "Word Match"
  | .trivia => "Trivia Quest"

/-- The `GameBuilderAgent._generate_title` with the default template
`"{theme} {game_type}"`. -/
def generate_title (theme : String) (game_type : GameType) : String :=
  pyTitle theme ++ " " ++ gameTypeDisplayName game_type

/-- Model of `GameBuilderAgent._generate_instructions`. -/
def generate_instructions (game_type : GameType) (word_count : Nat) : String :=
  match game_type with
  | .word_search =>
    "Find all " ++ toString word_count ++
      " hidden words in the grid. Words can be horizontal, vertical, or diagonal."
  | .crossword =>
    "Fill in the crossword puzzle using the " ++ toString word_count ++ " clues provided."
  | .anagram =>
    "Unscramble each set of letters to form " ++ toString word_count ++ " valid words."
  | .word_match =>
    "Match each clue with the correct word from the list of " ++
      toString word_count ++ " options."
  | .trivia =>
    "Answer all " ++ toString word_count ++ " trivia questions correctly."

/-- The `GameBuilderAgent._determine_word_category` (the `word` argument is
unused in the source as well). -/
def determine_word_category (_word theme : String) : String :=
  let theme_lower := pyLower theme
  if strContains theme_lower "animal" || strContains theme_lower "creature" then
    "animal"
  else if strContains theme_lower "place" || strContains theme_lower "location" ||
      strContains theme_lower "city" then
    "place"
  else if strContains theme_lower "action" || strContains theme_lower "verb" ||
      strContains theme_lower "activity" then
    "action"
  else
    "object"

/-- Model of `GameBuilderAgent._generate_clues`. -/
def generate_clues (words : List String) (theme : String) : List Clue :=
  words.map (fun word => format_clue word (some (determine_word_category word theme)))

/-- The `base_time_per_word` multiplier table of
`GameBuilderAgent._estimate_completion_time`. -/
def timeFactor : GameType → ℚ
  | .word_search => 1.5
  | .crossword => 2.0
  | .anagram => 1.0
  | .word_match => 0.5
  | .trivia => 1.0

/-- The `GameBuilderAgent._estimate_completion_time`:
`max(5, int(len(words) * time_factor + 2))`.  The Python `int()` truncation
coincides with the floor because the operand is nonnegative. -/
def estimate_completion_time (words : List String) (game_type : GameType) : Int :=
  let estimated_minutes : ℚ := (words.length : ℚ) * timeFactor game_type + 2
  max 5 estimated_minutes.floor

/-- The `GameBuilderAgent._run_validations` (the hard-coded `"word_game"` type
and `"medium"` difficulty are in the source). -/
def run_validations (content : GameContent) (theme : String) (words : List String) :
    ValidationSummary :=
  let game_data : GameData :=
    { type_ := some "word_game", title := some content.title
      words := some words, difficulty := some "medium" }
  let completion_result := validate_game_completion defaultGameValidator game_data
  let quality_result :=
    check_content_quality defaultGameValidator content.title words content.instructions
  let consistency_result :=
    validate_theme_consistency theme words content.instructions
  { completion_valid := completion_result.valid
    completion_errors := completion_result.error
    quality_score := quality_result.quality_score
    quality_issues := quality_result.issues
    consistency_score := consistency_result.consistency_score
    theme_mentioned := consistency_result.theme_mentioned_in_description }

/-- Model of `GameBuilderAgent._meets_quality_standards`. -/
def meets_quality_standards (standards : QualityStandards)
    (validation_results : ValidationSummary) : Bool :=
  if !validation_results.completion_valid then false
  else
    decide ((validation_results.quality_score : ℚ) ≥ standards.content_quality ∧
      (validation_results.consistency_score : ℚ) ≥ standards.theme_consistency)

/-- The `GameBuilderAgent.assemble_game` (default agent configuration). -/
def assemble_game (theme : String) (game_type : GameType) (words : List String)
    (difficulty : String) : CompleteGame :=
  let title := generate_title theme game_type
  let instructions := generate_instructions game_type words.length
  let clues := generate_clues words theme
  let content : GameContent :=
    { title := title
      instructions := instructions
      clues := clues
      answer_key := format_answer_key clues
      estimated_time_minutes := estimate_completion_time words game_type }
  let formatted_structure :=
    format_game_structure (gameTypeValue game_type) title words difficulty
  let validation_results := run_validations content theme words
  let metadata : GameMetadata :=
    { theme := theme
      game_type := game_type
      difficulty := difficulty
      word_count := words.length
      quality_score := (validation_results.quality_score : ℚ)
      consistency_score := (validation_results.consistency_score : ℚ) }
  { metadata := metadata
    content := content
    formatted_structure := formatted_structure
    validation_results := validation_results
    ready_for_publication :=
      meets_quality_standards defaultQualityStandards validation_results }

/- ### word_picker_agent.py -/

/-- The `RefinedWordList` dataclass (`replacements` dict as an association
list in insertion order). -/
structure RefinedWordList where
  original_words : List String
  final_words : List String
  replacements : List (String × String)
  validation_results : List ValidationResult
  variety_result : VarietyResult
  quality_score : ℚ
deriving DecidableEq, Repr

/-- The `WordPickerAgent._suggest_replacement` (the `theme` argument is unused
in the source as well): no attempt below 3 characters, otherwise one
cleanup (keep letters of the lowercased word) followed by one
re-validation. -/
def suggest_replacement (invalid_word : String) (_theme : String) : Option String :=
  if invalid_word.length < 3 then none
  else
    let cleaned := String.mk ((pyLower invalid_word).data.filter Char.isAlpha)
    if cleaned.length ≥ 3 then
      if (validate_word defaultWordAnalyzer cleaned).valid then some cleaned else none
    else
      none

/-- The per-word loop of `WordPickerAgent.refine_word_list`, producing
`(validation_results, final_words, replacements)` in iteration order. -/
def refineLoop (theme : String) :
    List String → List ValidationResult × List String × List (String × String)
  | [] => ([], [], [])
  | word :: rest =>
    let validation := validate_word defaultWordAnalyzer word
    let prev := refineLoop theme rest
    if validation.valid = true ∧ validation.word.getD "" ≠ "" then
      (validation :: prev.1, validation.word.getD "" :: prev.2.1, prev.2.2)
    else
      match suggest_replacement word theme with
      | some replacement =>
        (validation :: prev.1, replacement :: prev.2.1,
          (word, replacement) :: prev.2.2)
      | none => (validation :: prev.1, prev.2.1, prev.2.2)

/-- Model of `WordPickerAgent._calculate_quality_score`. -/
def picker_quality_score (validation_results : List ValidationResult)
    (variety_result : VarietyResult) : ℚ :=
  let valid_count := (validation_results.filter (fun v => v.valid)).length
  let validation_score : ℚ :=
    if validation_results.isEmpty then 0
    else ((valid_count : ℚ) / (validation_results.length : ℚ)) * 50
  let variety_score : ℚ := if variety_result.valid then 50 else 25
  let distribution_bonus : ℚ :=
    match variety_result.difficulty_distribution with
    | none => 0
    | some dist =>
      let ideal : ℚ := (variety_result.total_words : ℚ) / 3
      let distribution_quality : ℚ := 1 -
        (|(dist.easy : ℚ) - ideal| + |(dist.medium : ℚ) - ideal| +
          |(dist.hard : ℚ) - ideal|) / ((variety_result.total_words : ℚ) * 2)
      distribution_quality * 20
  validation_score + variety_score + distribution_bonus

/-- The `WordPickerAgent.refine_word_list` (default agent configuration). -/
def refine_word_list (initial_words : List String) (theme : String) :
    RefinedWordList :=
  let (validation_results, final_words, replacements) := refineLoop theme initial_words
  let variety_result := check_word_variety defaultWordAnalyzer final_words
  { original_words := initial_words
    final_words := final_words
    replacements := replacements
    validation_results := validation_results
    variety_result := variety_result
    quality_score := picker_quality_score validation_results variety_result }

/-- The contribution of one input word to `final_words`: a valid word is
kept (normalised), an invalid one goes through `suggest_replacement`, and a
`none` outcome drops the word. -/
def refineWord (theme word : String) : Option String :=
  let validation := validate_word defaultWordAnalyzer word
  if validation.valid = true ∧ validation.word.getD "" ≠ "" then
    some (validation.word.getD "")
  else
    suggest_replacement word theme

/- ### Shared lemmas -/

/-- The `round2` agrees with rounding `100·q` to the nearest integer
(Mathlib's `round`). -/
theorem round2_eq_round (q : ℚ) : round2 q = ((round (q * 100) : ℤ) : ℚ) / 100 := by
  rw [round2, round_eq, Rat.floor_def', Rat.floor_def]

/-- The `Rat.floor` agrees with the floor function `⌊·⌋`. -/
theorem ratFloor_eq_intFloor (q : ℚ) : (q.floor : ℤ) = ⌊q⌋ := by
  rw [Rat.floor_def', Rat.floor_def]

/-- Counting each of the three difficulty levels accounts for every
element of the list. -/
theorem countLevel_sum (l : List DifficultyLevel) :
    countLevel DifficultyLevel.easy l + countLevel DifficultyLevel.medium l +
      countLevel DifficultyLevel.hard l = l.length := by
  induction l with
  | nil => rfl
  | cons d t ih =>
    cases d <;>
      simp only [countLevel, List.filter_cons, decide_eq_true_eq, List.length_cons] at ih ⊢ <;>
      simp only [if_true, if_false, reduceCtorEq, List.length_cons] <;>
      omega

/-- The `meets_quality_standards` unfolded to its three conjuncts. -/
theorem meets_quality_standards_iff (st : QualityStandards) (v : ValidationSummary) :
    meets_quality_standards st v = true ↔
      (v.completion_valid = true ∧ st.content_quality ≤ (v.quality_score : ℚ) ∧
        st.theme_consistency ≤ (v.consistency_score : ℚ)) := by
  unfold meets_quality_standards
  cases h : v.completion_valid <;> simp [h, ge_iff_le]

/- ### Claims -/

/-- C9: for every word list and game type, `_estimate_completion_time`
returns `max(5, floor(len(words) * multiplier + 2))` minutes, with
multipliers 1.5 (word_search), 2.0 (crossword), 1.0 (anagram),
0.5 (word_match), 1.0 (trivia); in particular 8 words with game type
anagram give exactly 10 minutes. -/
theorem estimate_completion_time_spec (words : List String) (game_type : GameType) :
    estimate_completion_time words game_type =
      max 5 ⌊(words.length : ℚ) * timeFactor game_type + 2⌋ ∧
    timeFactor GameType.word_search = 1.5 ∧
    timeFactor GameType.crossword = 2.0 ∧
    timeFactor GameType.anagram = 1.0 ∧
    timeFactor GameType.word_match = 0.5 ∧
    timeFactor GameType.trivia = 1.0 ∧
    estimate_completion_time ["w1", "w2", "w3", "w4", "w5", "w6", "w7", "w8"]
      GameType.anagram = 10 := by
  refine ⟨?_, by norm_num [timeFactor], by norm_num [timeFactor],
    by norm_num [timeFactor], by norm_num [timeFactor], by norm_num [timeFactor],
    by decide⟩
  show 5 ⊔ ((words.length : ℚ) * timeFactor game_type + 2).floor = _
  rw [ratFloor_eq_intFloor]

/-- C10: the time estimate embedded by `GameFormatter.format_game_structure`
is `5 + len(words) // 5`, a different function from
`GameBuilderAgent._estimate_completion_time`; on 8 words with game type
crossword the assembled game carries 6 minutes inside
`formatted_structure` but 18 minutes in `content.estimated_time_minutes`. -/
theorem formatter_and_builder_time_estimates_disagree :
    (∀ (game_type title : String) (words : List String) (difficulty : String),
      (format_game_structure game_type title words
          difficulty).content.estimated_time_minutes = 5 + words.length / 5) ∧
    (assemble_game "castle" GameType.crossword
        ["tower", "moat", "keep", "drawbridge", "turret", "gate", "wall", "dungeon"]
        "medium").formatted_structure.content.estimated_time_minutes = 6 ∧
    (assemble_game "castle" GameType.crossword
        ["tower", "moat", "keep", "drawbridge", "turret", "gate", "wall", "dungeon"]
        "medium").content.estimated_time_minutes = 18 := by
  exact ⟨fun _ _ _ _ => rfl, by decide, by decide⟩

/-- C6: `check_content_quality` runs all three bound checks, appending one
issue per violated bound; the quality score always equals
`max(0, 100 − 20 × total_issues)`, lies in `[0, 100]`, and the result is
valid iff there are no issues.  Title `"a"` with three fruit words and
instructions `"Find all the fruits"` yields exactly one issue and score
80. -/
theorem check_content_quality_spec (title : String) (words : List String)
    (instructions : String) :
    (check_content_quality defaultGameValidator title words instructions).quality_score =
      max 0 (100 - 20 *
        ((check_content_quality defaultGameValidator title words
          instructions).total_issues : Int)) ∧
    0 ≤ (check_content_quality defaultGameValidator title words
      instructions).quality_score ∧
    (check_content_quality defaultGameValidator title words
      instructions).quality_score ≤ 100 ∧
    ((check_content_quality defaultGameValidator title words instructions).valid = true ↔
      (check_content_quality defaultGameValidator title words
        instructions).total_issues = 0) ∧
    (check_content_quality defaultGameValidator title words
        instructions).total_issues =
      (check_content_quality defaultGameValidator title words
        instructions).issues.length ∧
    (check_content_quality defaultGameValidator "a" ["apple", "banana", "cherry"]
        "Find all the fruits").total_issues = 1 ∧
    (check_content_quality defaultGameValidator "a" ["apple", "banana", "cherry"]
        "Find all the fruits").quality_score = 80 ∧
    (check_content_quality defaultGameValidator "a" ["apple", "banana", "cherry"]
        "Find all the fruits").valid = false := by
  refine ⟨?_, ?_, ?_, ?_, rfl, by decide, by decide, by decide⟩ <;>
    unfold check_content_quality <;>
    set l : List String :=
      (if title = "" ∨ title.length < defaultGameValidator.title_min then
        ["Title must be at least " ++ toString defaultGameValidator.title_min ++
          " characters"] else []) ++
      (if title.length > defaultGameValidator.title_max then
        ["Title must be " ++ toString defaultGameValidator.title_max ++
          " characters or less"] else []) ++
      (if words.length < defaultGameValidator.word_min then
        ["Game must contain at least " ++ toString defaultGameValidator.word_min ++
          " words"] else []) ++
      (if words.length > defaultGameValidator.word_max then
        ["Game should not exceed " ++ toString defaultGameValidator.word_max ++
          " words"] else []) ++
      (if instructions = "" ∨ instructions.length < defaultGameValidator.instr_min then
        ["Instructions must be at least " ++
          toString defaultGameValidator.instr_min ++ " characters"] else []) ++
      (if instructions.length > defaultGameValidator.instr_max then
        ["Instructions should not exceed " ++
          toString defaultGameValidator.instr_max ++ " characters"] else []) with hl
  · by_cases h : l = [] <;>
      simp [h, List.isEmpty_iff, Int.mul_comm]
  · by_cases h : l = [] <;> simp [h, List.isEmpty_iff]
  · by_cases h : l = [] <;> simp [h, List.isEmpty_iff]
  · by_cases h : l = [] <;> simp [h, List.isEmpty_iff, List.length_eq_zero]

/-- C8: `validate_theme_consistency` fails with consistency score 0 on an
empty theme or an empty word list; otherwise it succeeds with score exactly
85 when the theme occurs case-insensitively in the description and exactly
70 when it does not, copying the word count from the input list. -/
theorem validate_theme_consistency_spec (theme description : String)
    (words : List String) :
    (validate_theme_consistency "" words description =
      { valid := false, theme := "", theme_mentioned_in_description := false
        word_count := 0, consistency_score := 0
        error := some "Theme cannot be empty" }) ∧
    (theme ≠ "" → validate_theme_consistency theme [] description =
      { valid := false, theme := theme, theme_mentioned_in_description := false
        word_count := 0, consistency_score := 0
        error := some "Word list cannot be empty" }) ∧
    (theme ≠ "" → words ≠ [] →
      validate_theme_consistency theme words description =
        { valid := true, theme := theme
          theme_mentioned_in_description :=
            strContains (pyLower description) (pyLower theme)
          word_count := words.length
          consistency_score :=
            if strContains (pyLower description) (pyLower theme) then 85 else 70
          error := none }) := by
  refine ⟨rfl, fun h => ?_, fun h h' => ?_⟩ <;> unfold validate_theme_consistency <;>
    simp [h]
  intro hx
  exact absurd hx h'

/-- Witness for C8 at concrete inputs: a non-blank theme and non-empty word
list succeed with score 85 when the theme appears in the description, and
the empty-list failure is hit for theme `"fruits"`. -/
theorem validate_theme_consistency_spec_witness :
    validate_theme_consistency "fruits" ["apple"] "A game about fruits" =
      { valid := true, theme := "fruits", theme_mentioned_in_description := true
        word_count := 1, consistency_score := 85, error := none } ∧
    (validate_theme_consistency "fruits" [] "x").valid = false := by
  constructor
  · exact ((validate_theme_consistency_spec "fruits" "A game about fruits"
      ["apple"]).2.2 (by decide) (by decide)).trans (by decide)
  · exact congrArg ThemeConsistencyResult.valid
      ((validate_theme_consistency_spec "fruits" "x" ["apple"]).2.1 (by decide))

/-- C7: `validate_word` on input whose trimmed, lowercased form is
all-letters with length in `[3, 20]` succeeds with the normalised word and
its length; blank input, input shorter than 3 after trimming, longer than
20, or containing a non-letter fails with the corresponding error, checked
in the order empty, too short, too long, non-alphabetic. -/
theorem validate_word_spec (word : String) :
    (pyLower (pyStrip word) = "" →
      validate_word defaultWordAnalyzer word =
        { valid := false, error := some "Word cannot be empty" }) ∧
    (pyLower (pyStrip word) ≠ "" → (pyLower (pyStrip word)).length < 3 →
      validate_word defaultWordAnalyzer word =
        { valid := false, error := some "Word must be at least 3 characters" }) ∧
    ((pyLower (pyStrip word)).length > 20 →
      validate_word defaultWordAnalyzer word =
        { valid := false, error := some "Word must be 20 characters or less" }) ∧
    (3 ≤ (pyLower (pyStrip word)).length → (pyLower (pyStrip word)).length ≤ 20 →
      ¬(pyLower (pyStrip word)).data.all Char.isAlpha →
      validate_word defaultWordAnalyzer word =
        { valid := false, error := some "Word must contain only letters" }) ∧
    (3 ≤ (pyLower (pyStrip word)).length → (pyLower (pyStrip word)).length ≤ 20 →
      (pyLower (pyStrip word)).data.all Char.isAlpha →
      validate_word defaultWordAnalyzer word =
        { valid := true, word := some (pyLower (pyStrip word))
          length := some (pyLower (pyStrip word)).length }) := by
  have hne3 : 3 ≤ (pyLower (pyStrip word)).length → pyLower (pyStrip word) ≠ "" := by
    intro h3 he
    rw [he] at h3
    exact absurd h3 (by decide)
  refine ⟨fun h => ?_, fun h h' => ?_, fun h => ?_, fun h h' h'' => ?_,
    fun h h' h'' => ?_⟩ <;> unfold validate_word <;> simp only [defaultWordAnalyzer]
  · rw [if_pos h]
  · rw [if_neg h, if_pos h']
    exact rfl
  · have hne' : pyLower (pyStrip word) ≠ "" := hne3 (by omega)
    rw [if_neg hne', if_neg (show ¬(pyLower (pyStrip word)).length < 3 by omega),
      if_pos h]
    exact rfl
  · have hne' := hne3 h
    rw [if_neg hne', if_neg (Nat.not_lt.mpr h), if_neg (Nat.not_lt.mpr h'),
      if_pos h'']
  · have hne' := hne3 h
    rw [if_neg hne', if_neg (Nat.not_lt.mpr h), if_neg (Nat.not_lt.mpr h'),
      if_neg (not_not_intro h'')]

/-- Witness for C7: `"apple"` (all letters, length 5) validates
successfully, and `"hi"` (length 2 after trimming) is rejected as too
short. -/
theorem validate_word_spec_witness :
    validate_word defaultWordAnalyzer "apple" =
      { valid := true, word := some "apple", length := some 5 } ∧
    validate_word defaultWordAnalyzer "hi" =
      { valid := false, error := some "Word must be at least 3 characters" } := by
  constructor
  · exact (validate_word_spec "apple").2.2.2.2 (by decide) (by decide) (by decide)
  · exact (validate_word_spec "hi").2.1 (by decide) (by decide)

/-- C4: with the default configuration, `calculate_difficulty` reports the
score `(len/20 × 0.6 + |V−C|/len × 0.4) × 100` rounded to two decimals
(ratio term 0 for the empty word), and buckets the unrounded score as EASY
below 30, MEDIUM in `[30, 60)` and HARD at 60 and above; a score of
exactly 30 (e.g. `"banananana"`) buckets as MEDIUM.  Determinism is
inherent: the embedding is a function of the word alone. -/
theorem calculate_difficulty_spec (word : String) :
    (calculate_difficulty defaultWordAnalyzer word).score =
      round2 (difficultyRawScore defaultWordAnalyzer word) ∧
    difficultyRawScore defaultWordAnalyzer word =
      (((pyLower word).length : ℚ) / 20 * 0.6 +
        (if (pyLower word).length = 0 then 0
         else |(vowelCount defaultWordAnalyzer (pyLower word) : ℚ) -
            (((pyLower word).length -
              vowelCount defaultWordAnalyzer (pyLower word) : ℕ) : ℚ)| /
          ((pyLower word).length : ℚ)) * 0.4) * 100 ∧
    ((calculate_difficulty defaultWordAnalyzer word).difficulty =
        DifficultyLevel.easy ↔ difficultyRawScore defaultWordAnalyzer word < 30) ∧
    ((calculate_difficulty defaultWordAnalyzer word).difficulty =
        DifficultyLevel.medium ↔
      30 ≤ difficultyRawScore defaultWordAnalyzer word ∧
        difficultyRawScore defaultWordAnalyzer word < 60) ∧
    ((calculate_difficulty defaultWordAnalyzer word).difficulty =
        DifficultyLevel.hard ↔ 60 ≤ difficultyRawScore defaultWordAnalyzer word) ∧
    (calculate_difficulty defaultWordAnalyzer "banananana").score = 30 ∧
    (calculate_difficulty defaultWordAnalyzer "banananana").difficulty =
      DifficultyLevel.medium := by
  refine ⟨rfl, ?_, ?_, ?_, ?_, by decide, by decide⟩
  · unfold difficultyRawScore
    simp only [defaultWordAnalyzer]
    norm_num
  · show (if difficultyRawScore defaultWordAnalyzer word < (30 : ℚ) then
        DifficultyLevel.easy
      else if difficultyRawScore defaultWordAnalyzer word < (60 : ℚ) then
        DifficultyLevel.medium
      else DifficultyLevel.hard) = DifficultyLevel.easy ↔ _
    by_cases h1 : difficultyRawScore defaultWordAnalyzer word < 30 <;>
      by_cases h2 : difficultyRawScore defaultWordAnalyzer word < 60 <;>
      simp [h1, h2]
  · show (if difficultyRawScore defaultWordAnalyzer word < (30 : ℚ) then
        DifficultyLevel.easy
      else if difficultyRawScore defaultWordAnalyzer word < (60 : ℚ) then
        DifficultyLevel.medium
      else DifficultyLevel.hard) = DifficultyLevel.medium ↔ _
    by_cases h1 : difficultyRawScore defaultWordAnalyzer word < 30 <;>
      by_cases h2 : difficultyRawScore defaultWordAnalyzer word < 60 <;>
      simp [h1, h2] <;> linarith
  · show (if difficultyRawScore defaultWordAnalyzer word < (30 : ℚ) then
        DifficultyLevel.easy
      else if difficultyRawScore defaultWordAnalyzer word < (60 : ℚ) then
        DifficultyLevel.medium
      else DifficultyLevel.hard) = DifficultyLevel.hard ↔ _
    by_cases h1 : difficultyRawScore defaultWordAnalyzer word < 30 <;>
      by_cases h2 : difficultyRawScore defaultWordAnalyzer word < 60 <;>
      simp [h1, h2] <;> linarith

/-- C5: `check_word_variety` fails on the empty list; on a list with
case-insensitive duplicates it fails reporting
`duplicate_count = total − unique`; on every duplicate-free non-empty list
it succeeds with a difficulty histogram summing to the total word count.
`["apple", "banana", "apple"]` fails with duplicate count 1,
`["apple", "banana", "cherry"]` succeeds with 3 unique words and histogram
`{easy: 2, medium: 1, hard: 0}` summing to 3. -/
theorem check_word_variety_spec (words : List String) :
    ((check_word_variety defaultWordAnalyzer []).valid = false ∧
     (check_word_variety defaultWordAnalyzer []).error = some "Word list is empty") ∧
    (words ≠ [] → uniqueLowerCount words ≠ words.length →
      (check_word_variety defaultWordAnalyzer words).valid = false ∧
      (check_word_variety defaultWordAnalyzer words).duplicate_count =
        some (words.length - uniqueLowerCount words)) ∧
    (words ≠ [] → uniqueLowerCount words = words.length →
      (check_word_variety defaultWordAnalyzer words).valid = true ∧
      (check_word_variety defaultWordAnalyzer words).total_words = words.length ∧
      ∃ dist, (check_word_variety defaultWordAnalyzer
          words).difficulty_distribution = some dist ∧
        dist.easy + dist.medium + dist.hard = words.length) ∧
    ((check_word_variety defaultWordAnalyzer
        ["apple", "banana", "apple"]).valid = false ∧
     (check_word_variety defaultWordAnalyzer
        ["apple", "banana", "apple"]).duplicate_count = some 1) ∧
    ((check_word_variety defaultWordAnalyzer
        ["apple", "banana", "cherry"]).valid = true ∧
     (check_word_variety defaultWordAnalyzer
        ["apple", "banana", "cherry"]).unique_words = 3 ∧
     (check_word_variety defaultWordAnalyzer
        ["apple", "banana", "cherry"]).difficulty_distribution =
       some { easy := 2, medium := 1, hard := 0 }) := by
  refine ⟨⟨rfl, rfl⟩, fun h h' => ?_, fun h h' => ?_, by decide, by decide⟩ <;>
    unfold check_word_variety
  · rw [if_neg h, if_pos h']
    exact ⟨rfl, rfl⟩
  · rw [if_neg h, if_neg (not_not_intro h')]
    refine ⟨rfl, rfl, _, rfl, ?_⟩
    have := countLevel_sum
      ((words.map (fun w => (calculate_difficulty defaultWordAnalyzer w).difficulty)))
    simpa using this

/-- Witness for C5: the duplicate branch at
`["apple", "banana", "apple"]` and the success branch at
`["apple", "banana", "cherry"]`, with hypotheses discharged concretely. -/
theorem check_word_variety_spec_witness :
    (check_word_variety defaultWordAnalyzer
      ["apple", "banana", "apple"]).duplicate_count = some 1 ∧
    (check_word_variety defaultWordAnalyzer
      ["apple", "banana", "cherry"]).valid = true := by
  constructor
  · have h := ((check_word_variety_spec ["apple", "banana", "apple"]).2.1
      (by decide) (by decide)).2
    exact h.trans (by decide)
  · exact ((check_word_variety_spec ["apple", "banana", "cherry"]).2.2.1
      (by decide) (by decide)).1

/-- C3: `refine_word_list` keeps each valid word (normalised), sends each
invalid word through exactly one cleanup attempt (`_suggest_replacement`,
which never attempts cleanup on originals shorter than 3 characters), and
drops the word when the attempt fails; consequently the final list is a
`filterMap` of the input and never longer than it. -/
theorem refine_word_list_spec (initial_words : List String) (theme : String) :
    (refine_word_list initial_words theme).final_words =
      initial_words.filterMap (refineWord theme) ∧
    (refine_word_list initial_words theme).final_words.length ≤
      initial_words.length ∧
    (refine_word_list initial_words theme).original_words = initial_words ∧
    (∀ word, (validate_word defaultWordAnalyzer word).valid = false →
      refineWord theme word = suggest_replacement word theme) ∧
    (∀ word, word.length < 3 → suggest_replacement word theme = none) := by
  have hrw : ∀ w, refineWord theme w =
      (if (validate_word defaultWordAnalyzer w).valid = true ∧
          (validate_word defaultWordAnalyzer w).word.getD "" ≠ "" then
        some ((validate_word defaultWordAnalyzer w).word.getD "")
      else suggest_replacement w theme) := fun w => rfl
  have hloop : ∀ ws : List String,
      (refineLoop theme ws).2.1 = ws.filterMap (refineWord theme) := by
    intro ws
    induction ws with
    | nil => rfl
    | cons w t ih =>
      rw [List.filterMap_cons, ← ih]
      simp only [refineLoop]
      by_cases h : (validate_word defaultWordAnalyzer w).valid = true ∧
          (validate_word defaultWordAnalyzer w).word.getD "" ≠ ""
      · rw [hrw w, if_pos h, if_pos h]
      · rw [hrw w, if_neg h, if_neg h]
        cases hs : suggest_replacement w theme <;> simp [hs]
  refine ⟨hloop initial_words, ?_, rfl, fun word hv => ?_, fun word hlen => ?_⟩
  · show (refineLoop theme initial_words).2.1.length ≤ initial_words.length
    rw [hloop initial_words]
    exact List.length_filterMap_le _ _
  · simp [hrw word, hv]
  · unfold suggest_replacement
    rw [if_pos hlen]

/-- Witness for C3 at concrete inputs: the invalid two-character word
`"a!"` gets no cleanup attempt and is dropped, so refining
`["cat", "a!"]` yields just `["cat"]`. -/
theorem refine_word_list_spec_witness :
    refineWord "animals" "a!" = suggest_replacement "a!" "animals" ∧
    suggest_replacement "a!" "animals" = none ∧
    (refine_word_list ["cat", "a!"] "animals").final_words = ["cat"] := by
  refine ⟨(refine_word_list_spec ["cat", "a!"] "animals").2.2.2.1 "a!" (by decide),
    (refine_word_list_spec ["cat", "a!"] "animals").2.2.2.2 "a!" (by decide), ?_⟩
  have h := (refine_word_list_spec ["cat", "a!"] "animals").1
  exact h.trans (by decide)

/-- The completion validation run by `_run_validations` is invalid for
every title and word list: with fewer than 3 words the word-count check
fails, and otherwise the hard-coded type string `"word_game"` is not a
member of the `GameType` value list. -/
theorem run_validations_completion_invalid (content : GameContent)
    (theme : String) (words : List String) :
    (run_validations content theme words).completion_valid = false := by
  show (validate_game_completion defaultGameValidator
    { type_ := some "word_game", title := some content.title
      words := some words, difficulty := some "medium" }).valid = false
  by_cases h : (words = [] ∨ words.length < defaultGameValidator.word_min) <;>
    simp +decide [validate_game_completion, gameDataMissing, h]

/-- C1: `assemble_game` marks a game ready for publication exactly when
the completion validation passed, the content-quality score is at least 80
and the theme-consistency score is at least 75 (the default thresholds). -/
theorem assemble_game_ready_iff (theme : String) (game_type : GameType)
    (words : List String) (difficulty : String) :
    (assemble_game theme game_type words difficulty).ready_for_publication = true ↔
      ((assemble_game theme game_type words
          difficulty).validation_results.completion_valid = true ∧
       (80 : ℚ) ≤ ((assemble_game theme game_type words
          difficulty).validation_results.quality_score : ℚ) ∧
       (75 : ℚ) ≤ ((assemble_game theme game_type words
          difficulty).validation_results.consistency_score : ℚ)) := by
  have h := meets_quality_standards_iff defaultQualityStandards
    (assemble_game theme game_type words difficulty).validation_results
  exact h

/-- C2: the claim that `assemble_game` can ever produce a publishable game
fails structurally: `_run_validations` validates completion with the
hard-coded type `"word_game"`, which is not a `GameType` value, so the
completion check is always invalid and `ready_for_publication` is always
false. -/
theorem assemble_game_never_ready (theme : String) (game_type : GameType)
    (words : List String) (difficulty : String) :
    (assemble_game theme game_type words difficulty).ready_for_publication = false := by
  have h2 := run_validations_completion_invalid
    { title := generate_title theme game_type
      instructions := generate_instructions game_type words.length
      clues := generate_clues words theme
      answer_key := format_answer_key (generate_clues words theme)
      estimated_time_minutes := estimate_completion_time words game_type }
    theme words
  have h3 : (assemble_game theme game_type words
      difficulty).validation_results.completion_valid = false := h2
  show meets_quality_standards defaultQualityStandards
    (assemble_game theme game_type words difficulty).validation_results = false
  unfold meets_quality_standards
  rw [h3]
  exact rfl

end PuzzleNetwork
